import Mathlib

set_option autoImplicit false

/-!
Shallow embedding of the signal core of `src/src/signal.rs`.

A deterministic upstream signal is modelled by the sequence of results of
its successive polls (`Upstream α : Nat → State α`); every combinator's
private state additionally records how many times it has polled each of
its upstreams, so "the upstream was polled exactly once during this call"
is expressed as "the poll counter advanced by exactly one".  Combinator
callbacks are modelled as pure functions (the Rust code passes `&mut`
references purely as an allocation optimisation; no claim depends on
in-place mutation).  The Rust `loop`s of `MapDedupe::poll` and
`FilterMap::poll` are modelled with explicit fuel, `none` signalling that
the fuel was exhausted before the loop returned.
-/

namespace RustSignals

/-- Poll result of a signal, mirroring `enum State<A>` in `signal.rs`:
`Changed` carrying a value, or `NotChanged`. -/
inductive State (α : Type) where
  | Changed (value : α) : State α
  | NotChanged : State α
  deriving DecidableEq

/-- `State::map`, applying a transform to the `Changed` payload only. -/
def State.map {α β : Type} (f : α → β) : State α → State β
  | State.Changed value => State.Changed (f value)
  | State.NotChanged => State.NotChanged

/-- A deterministic upstream signal, given by the results of its
successive polls: `u k` is the result of the upstream's `(k+1)`-st poll. -/
def Upstream (α : Type) : Type :=
  Nat → State α

/-- Private state of a `Map2` node: poll counters for the two upstreams
plus the cached `left`/`right` values (`left: Option<A::Item>`,
`right: Option<B::Item>` in the Rust struct). -/
structure Map2 (α β : Type) where
  k1 : Nat
  k2 : Nat
  left : Option α
  right : Option β
  deriving DecidableEq

/-- State built by the `Signal::map2` constructor: nothing polled yet and
both caches empty (`left: None, right: None`). -/
def map2Init (α β : Type) : Map2 α β :=
  ⟨0, 0, none, none⟩

/-- `Map2::poll`, transcribed branch by branch from `signal.rs` lines
258–293.  Returns the emitted `State` together with the updated node
state.  Note the final branch: when `signal1` yields `NotChanged` and no
left value is cached, the Rust code returns `NotChanged` *without*
polling `signal2` (its counter `k2` stays put). -/
def Map2.poll {α β γ : Type} (signal1 : Upstream α) (signal2 : Upstream β)
    (callback : α → β → γ) (s : Map2 α β) : State γ × Map2 α β :=
  match signal1 s.k1 with
  | State.Changed left =>
      match signal2 s.k2 with
      | State.Changed right =>
          (State.Changed (callback left right),
            ⟨s.k1 + 1, s.k2 + 1, some left, some right⟩)
      | State.NotChanged =>
          match s.right with
          | some right =>
              (State.Changed (callback left right),
                ⟨s.k1 + 1, s.k2 + 1, some left, some right⟩)
          | none =>
              (State.NotChanged, ⟨s.k1 + 1, s.k2 + 1, some left, none⟩)
  | State.NotChanged =>
      match s.left with
      | some left =>
          match signal2 s.k2 with
          | State.Changed right =>
              (State.Changed (callback left right),
                ⟨s.k1 + 1, s.k2 + 1, some left, some right⟩)
          | State.NotChanged =>
              (State.NotChanged, ⟨s.k1 + 1, s.k2 + 1, some left, s.right⟩)
      | none =>
          (State.NotChanged, ⟨s.k1 + 1, s.k2, none, s.right⟩)

/-- C1 (counterexample): at a concrete `Map2` node whose left upstream
returns `NotChanged` with no cached left value while the right upstream
would return `Changed 0`, a poll call leaves the right upstream's poll
counter untouched (it stays `0` instead of advancing to `1`) — so the
claim that both upstreams are polled exactly once per call is false. -/
theorem c1_counterexample :
    ¬ ((Map2.poll (fun _ => State.NotChanged) (fun _ => State.Changed 0)
        (fun a b : Nat => a + b) (map2Init Nat Nat)).2.k2
      = (map2Init Nat Nat).k2 + 1) := by
  decide

/-- C1 (amended): during every `Map2::poll` call the left upstream is
polled exactly once; the right upstream is polled exactly once *unless*
the left upstream returns `NotChanged` and no left value is cached, in
which case the call returns `NotChanged` without polling the right
upstream at all. -/
theorem map2_poll_counts {α β γ : Type} (signal1 : Upstream α)
    (signal2 : Upstream β) (callback : α → β → γ) (s : Map2 α β) :
    (Map2.poll signal1 signal2 callback s).2.k1 = s.k1 + 1 ∧
    ((signal1 s.k1 = State.NotChanged ∧ s.left = none) →
      (Map2.poll signal1 signal2 callback s).2.k2 = s.k2 ∧
      (Map2.poll signal1 signal2 callback s).1 = State.NotChanged) ∧
    (¬ (signal1 s.k1 = State.NotChanged ∧ s.left = none) →
      (Map2.poll signal1 signal2 callback s).2.k2 = s.k2 + 1) := by
  cases h1 : signal1 s.k1 <;> cases hl : s.left <;>
    cases h2 : signal2 s.k2 <;> cases hr : s.right <;>
    simp [Map2.poll, h1, hl, h2, hr]

/-- C1 (amended, witness): at a node whose left upstream changes, the
right upstream's counter does advance by one. -/
theorem map2_poll_counts_witness :
    (Map2.poll (fun _ => State.Changed 1) (fun _ => State.Changed 2)
      (fun a b : Nat => a + b) (map2Init Nat Nat)).2.k2
      = (map2Init Nat Nat).k2 + 1 :=
  (map2_poll_counts (fun _ => State.Changed 1) (fun _ => State.Changed 2)
    (fun a b : Nat => a + b) (map2Init Nat Nat)).2.2 (by decide)

/-- C2: `Map2::poll` realises the spec's decision table.  If left polls
`Changed l` and right polls `Changed r`, the output is
`Changed (callback l r)` and both values are cached; if left polls
`Changed l` and right polls `NotChanged` with a cached `r`, the output is
`Changed (callback l r)` and `l` is cached (the old `r` stays cached); if
left polls `Changed l` and right polls `NotChanged` with no cached right,
the output is `NotChanged` but `l` is cached anyway; if left polls
`NotChanged` with a cached `l` and right polls `Changed r`, the output is
`Changed (callback l r)` and `r` is cached; if both poll `NotChanged`,
the output is `NotChanged`. -/
theorem map2_poll_table {α β γ : Type} (signal1 : Upstream α)
    (signal2 : Upstream β) (callback : α → β → γ) (s : Map2 α β) :
    (∀ l r, signal1 s.k1 = State.Changed l → signal2 s.k2 = State.Changed r →
      Map2.poll signal1 signal2 callback s =
        (State.Changed (callback l r), ⟨s.k1 + 1, s.k2 + 1, some l, some r⟩)) ∧
    (∀ l r, signal1 s.k1 = State.Changed l → signal2 s.k2 = State.NotChanged →
      s.right = some r →
      Map2.poll signal1 signal2 callback s =
        (State.Changed (callback l r), ⟨s.k1 + 1, s.k2 + 1, some l, some r⟩)) ∧
    (∀ l, signal1 s.k1 = State.Changed l → signal2 s.k2 = State.NotChanged →
      s.right = none →
      Map2.poll signal1 signal2 callback s =
        (State.NotChanged, ⟨s.k1 + 1, s.k2 + 1, some l, none⟩)) ∧
    (∀ l r, signal1 s.k1 = State.NotChanged → s.left = some l →
      signal2 s.k2 = State.Changed r →
      Map2.poll signal1 signal2 callback s =
        (State.Changed (callback l r), ⟨s.k1 + 1, s.k2 + 1, some l, some r⟩)) ∧
    (signal1 s.k1 = State.NotChanged → signal2 s.k2 = State.NotChanged →
      (Map2.poll signal1 signal2 callback s).1 = State.NotChanged) := by
  refine ⟨?_, ?_, ?_, ?_, ?_⟩
  · intro l r h1 h2
    simp [Map2.poll, h1, h2]
  · intro l r h1 h2 h3
    simp [Map2.poll, h1, h2, h3]
  · intro l h1 h2 h3
    simp [Map2.poll, h1, h2, h3]
  · intro l r h1 h2 h3
    simp [Map2.poll, h1, h2, h3]
  · intro h1 h2
    cases hl : s.left <;> simp [Map2.poll, h1, h2, hl]

/-- C2 (witness): the both-changed row of the table at a concrete node. -/
theorem map2_poll_table_witness :
    Map2.poll (fun _ => State.Changed 1) (fun _ => State.Changed 2)
      (fun a b : Nat => a + b) (map2Init Nat Nat)
      = (State.Changed 3, ⟨1, 1, some 1, some 2⟩) :=
  (map2_poll_table (fun _ => State.Changed 1) (fun _ => State.Changed 2)
    (fun a b : Nat => a + b) (map2Init Nat Nat)).1 1 2 rfl rfl

/-- Private state of a `MapDedupe` node: the upstream poll counter and
the cached previous *input* value (`old_value: Option<A::Item>`). -/
structure MapDedupe (α : Type) where
  k : Nat
  old_value : Option α
  deriving DecidableEq

/-- State built by the `Signal::map_dedupe` constructor:
`old_value: None`, nothing polled yet. -/
def mapDedupeInit (α : Type) : MapDedupe α :=
  ⟨0, none⟩

/-- `MapDedupe::poll`, transcribed from `signal.rs` lines 312–330.  The
Rust `loop` is given explicit fuel; `none` means the fuel ran out before
the loop returned.  On `Changed value`, `has_changed` compares against
the cached previous input (`None` counts as changed); an unchanged value
is discarded and the upstream polled again within the same call. -/
def MapDedupe.poll {α β : Type} [DecidableEq α] (fuel : Nat)
    (signal : Upstream α) (callback : α → β) (s : MapDedupe α) :
    Option (State β × MapDedupe α) :=
  match fuel with
  | 0 => none
  | fuel + 1 =>
      match signal s.k with
      | State.Changed value =>
          let has_changed : Bool :=
            match s.old_value with
            | some old_value => decide (old_value ≠ value)
            | none => true
          if has_changed then
            some (State.Changed (callback value), ⟨s.k + 1, some value⟩)
          else
            MapDedupe.poll fuel signal callback ⟨s.k + 1, s.old_value⟩
      | State.NotChanged =>
          some (State.NotChanged, ⟨s.k + 1, s.old_value⟩)

/-- An upstream `NotChanged` makes `MapDedupe::poll` return `NotChanged`
immediately, leaving the cached input untouched. -/
theorem MapDedupe.poll_not_changed_dedupe {α β : Type} [DecidableEq α] (fuel : Nat)
    (signal : Upstream α) (callback : α → β) (s : MapDedupe α)
    (h : signal s.k = State.NotChanged) :
    MapDedupe.poll (fuel + 1) signal callback s =
      some (State.NotChanged, ⟨s.k + 1, s.old_value⟩) := by
  simp [MapDedupe.poll, h]

/-- An upstream `Changed v` with `v` different from the cached previous
input (or with no previous input) caches `v` and emits `Changed` of the
transformed value. -/
theorem MapDedupe.poll_changed_of_ne {α β : Type} [DecidableEq α] (fuel : Nat)
    (signal : Upstream α) (callback : α → β) (s : MapDedupe α) (v : α)
    (h : signal s.k = State.Changed v) (hne : s.old_value ≠ some v) :
    MapDedupe.poll (fuel + 1) signal callback s =
      some (State.Changed (callback v), ⟨s.k + 1, some v⟩) := by
  cases hov : s.old_value with
  | none => simp [MapDedupe.poll, h, hov]
  | some old =>
      have hne2 : old ≠ v := fun he => hne (by rw [hov, he])
      simp [MapDedupe.poll, h, hov, hne2]

/-- An upstream `Changed v` equal to the cached previous input is
discarded: the upstream is polled again within the same call. -/
theorem MapDedupe.poll_changed_of_eq {α β : Type} [DecidableEq α] (fuel : Nat)
    (signal : Upstream α) (callback : α → β) (s : MapDedupe α) (v : α)
    (h : signal s.k = State.Changed v) (hov : s.old_value = some v) :
    MapDedupe.poll (fuel + 1) signal callback s =
      MapDedupe.poll fuel signal callback ⟨s.k + 1, s.old_value⟩ := by
  simp [MapDedupe.poll, h, hov]

/-- Successive outer polls of a `MapDedupe` node, collecting the emitted
results; each outer poll gets the given fuel for its inner loop. -/
def MapDedupe.run {α β : Type} [DecidableEq α] (fuel : Nat)
    (signal : Upstream α) (callback : α → β) :
    Nat → MapDedupe α → Option (List (State β))
  | 0, _ => some []
  | n + 1, s =>
      match MapDedupe.poll fuel signal callback s with
      | some (out, s') =>
          match MapDedupe.run fuel signal callback n s' with
          | some rest => some (out :: rest)
          | none => none
      | none => none

/-- The upstream of C3's scenario: it yields the values `[1,1,2,2,2,3]`,
one `Changed` per outer poll, and `NotChanged` when re-polled within the
same outer call.  Written out against the global sub-poll index, the
dedupe node consumes exactly this sequence: one sub-poll for each
emitted value, two sub-polls (the duplicate then `NotChanged`) for each
swallowed duplicate. -/
def dedupeSource : Upstream Nat := fun n =>
  match n with
  | 0 => State.Changed 1
  | 1 => State.Changed 1
  | 2 => State.NotChanged
  | 3 => State.Changed 2
  | 4 => State.Changed 2
  | 5 => State.NotChanged
  | 6 => State.Changed 2
  | 7 => State.NotChanged
  | 8 => State.Changed 3
  | _ => State.NotChanged

/-- C3: `MapDedupe` suppresses equal repeats.  With the identity
transform over the upstream yielding `[1,1,2,2,2,3]` one `Changed` per
call, six successive polls return exactly
`Changed 1, NotChanged, Changed 2, NotChanged, NotChanged, Changed 3`;
and in general an upstream `NotChanged` returns `NotChanged`
immediately, a `Changed v` different from the cached previous input
(or with no previous input) caches `v` and returns `Changed` of the
transformed value, while a `Changed v` equal to the cache is discarded
by re-polling the upstream within the same call. -/
theorem map_dedupe_poll_spec :
    MapDedupe.run 3 dedupeSource (fun v => v) 6 (mapDedupeInit Nat) =
      some [State.Changed 1, State.NotChanged, State.Changed 2,
        State.NotChanged, State.NotChanged, State.Changed 3] ∧
    (∀ (α β : Type) (inst : DecidableEq α) (fuel : Nat)
      (signal : Upstream α) (callback : α → β) (s : MapDedupe α),
      signal s.k = State.NotChanged →
        MapDedupe.poll (fuel + 1) signal callback s =
          some (State.NotChanged, ⟨s.k + 1, s.old_value⟩)) ∧
    (∀ (α β : Type) (inst : DecidableEq α) (fuel : Nat)
      (signal : Upstream α) (callback : α → β) (s : MapDedupe α) (v : α),
      signal s.k = State.Changed v → s.old_value ≠ some v →
        MapDedupe.poll (fuel + 1) signal callback s =
          some (State.Changed (callback v), ⟨s.k + 1, some v⟩)) ∧
    (∀ (α β : Type) (inst : DecidableEq α) (fuel : Nat)
      (signal : Upstream α) (callback : α → β) (s : MapDedupe α) (v : α),
      signal s.k = State.Changed v → s.old_value = some v →
        MapDedupe.poll (fuel + 1) signal callback s =
          MapDedupe.poll fuel signal callback ⟨s.k + 1, s.old_value⟩) := by
  refine ⟨by decide, ?_, ?_, ?_⟩
  · intro α β inst fuel signal callback s h
    exact MapDedupe.poll_not_changed_dedupe fuel signal callback s h
  · intro α β inst fuel signal callback s v h hne
    exact MapDedupe.poll_changed_of_ne fuel signal callback s v h hne
  · intro α β inst fuel signal callback s v h hov
    exact MapDedupe.poll_changed_of_eq fuel signal callback s v h hov

/-- C3 (witness): the three general clauses at concrete inputs — an
upstream `NotChanged` passes through, a fresh value `2` over cache `1` is
emitted, and a repeated value `1` over cache `1` re-drives the loop. -/
theorem map_dedupe_poll_spec_witness :
    MapDedupe.poll 1 (fun _ => State.NotChanged) (fun v : Nat => v)
        (mapDedupeInit Nat) =
      some (State.NotChanged, ⟨1, none⟩) ∧
    MapDedupe.poll 1 (fun _ => State.Changed 2) (fun v : Nat => v)
        ⟨0, some 1⟩ =
      some (State.Changed 2, ⟨1, some 2⟩) ∧
    MapDedupe.poll 2 (fun _ => State.Changed 1) (fun v : Nat => v)
        ⟨0, some 1⟩ =
      MapDedupe.poll 1 (fun _ => State.Changed 1) (fun v : Nat => v)
        ⟨1, some 1⟩ :=
  ⟨map_dedupe_poll_spec.2.1 Nat Nat inferInstance 0 _ _ _ rfl,
    map_dedupe_poll_spec.2.2.1 Nat Nat inferInstance 0 _ _ _ 2 rfl
      (by decide),
    map_dedupe_poll_spec.2.2.2 Nat Nat inferInstance 1 _ _ _ 1 rfl rfl⟩

/-- Private state of a `FilterMap` node: the upstream poll counter and
the `first` flag. -/
structure FilterMap where
  k : Nat
  first : Bool
  deriving DecidableEq

/-- State built by the `Signal::filter_map` constructor:
`first: true`, nothing polled yet. -/
def filterMapInit : FilterMap :=
  ⟨0, true⟩

/-- `FilterMap::poll`, transcribed from `signal.rs` lines 347–363, with
explicit fuel for the Rust `loop`.  A `Changed value` whose callback
yields `some out` clears `first` and emits `Changed (some out)`; one
whose callback yields `none` emits the one-time `Changed none` if
`first` is still set, and is otherwise discarded with the upstream
polled again within the same call. -/
def FilterMap.poll {α β : Type} (fuel : Nat) (signal : Upstream α)
    (callback : α → Option β) (s : FilterMap) :
    Option (State (Option β) × FilterMap) :=
  match fuel with
  | 0 => none
  | fuel + 1 =>
      match signal s.k with
      | State.Changed value =>
          match callback value with
          | some value => some (State.Changed (some value), ⟨s.k + 1, false⟩)
          | none =>
              if s.first then
                some (State.Changed none, ⟨s.k + 1, false⟩)
              else
                FilterMap.poll fuel signal callback ⟨s.k + 1, s.first⟩
      | State.NotChanged =>
          some (State.NotChanged, ⟨s.k + 1, s.first⟩)

/-- An upstream `NotChanged` makes `FilterMap::poll` return `NotChanged`
immediately, leaving the `first` flag untouched. -/
theorem FilterMap.poll_not_changed_filter {α β : Type} (fuel : Nat)
    (signal : Upstream α) (callback : α → Option β) (s : FilterMap)
    (h : signal s.k = State.NotChanged) :
    FilterMap.poll (fuel + 1) signal callback s =
      some (State.NotChanged, ⟨s.k + 1, s.first⟩) := by
  simp [FilterMap.poll, h]

/-- A `Changed v` accepted by the callback clears `first` and emits
`Changed (some out)`. -/
theorem FilterMap.poll_changed_some {α β : Type} (fuel : Nat)
    (signal : Upstream α) (callback : α → Option β) (s : FilterMap)
    (v : α) (out : β) (h : signal s.k = State.Changed v)
    (hc : callback v = some out) :
    FilterMap.poll (fuel + 1) signal callback s =
      some (State.Changed (some out), ⟨s.k + 1, false⟩) := by
  simp [FilterMap.poll, h, hc]

/-- A rejected `Changed v` while `first` is still set clears `first` and
emits the one-time `Changed none` event. -/
theorem FilterMap.poll_changed_none_of_first {α β : Type} (fuel : Nat)
    (signal : Upstream α) (callback : α → Option β) (s : FilterMap)
    (v : α) (h : signal s.k = State.Changed v) (hc : callback v = none)
    (hf : s.first = true) :
    FilterMap.poll (fuel + 1) signal callback s =
      some (State.Changed none, ⟨s.k + 1, false⟩) := by
  simp [FilterMap.poll, h, hc, hf]

/-- A rejected `Changed v` once `first` is cleared is discarded: the
upstream is polled again within the same call. -/
theorem FilterMap.poll_changed_none_loop {α β : Type} (fuel : Nat)
    (signal : Upstream α) (callback : α → Option β) (s : FilterMap)
    (v : α) (h : signal s.k = State.Changed v) (hc : callback v = none)
    (hf : s.first = false) :
    FilterMap.poll (fuel + 1) signal callback s =
      FilterMap.poll fuel signal callback ⟨s.k + 1, false⟩ := by
  simp [FilterMap.poll, h, hc, hf]

/-- Successive outer polls of a `FilterMap` node, collecting the emitted
results; each outer poll gets the given fuel for its inner loop. -/
def FilterMap.run {α β : Type} (fuel : Nat) (signal : Upstream α)
    (callback : α → Option β) :
    Nat → FilterMap → Option (List (State (Option β)))
  | 0, _ => some []
  | n + 1, s =>
      match FilterMap.poll fuel signal callback s with
      | some (out, s') =>
          match FilterMap.run fuel signal callback n s' with
          | some rest => some (out :: rest)
          | none => none
      | none => none

/-- The upstream of C4's scenario: four values fed one per outer poll
(`NotChanged` on re-polls within the same call), whose callback results
under `filterCallback` are `[none, none, some 5, none]`. -/
def filterSource : Upstream Nat := fun n =>
  match n with
  | 0 => State.Changed 1
  | 1 => State.Changed 2
  | 2 => State.NotChanged
  | 3 => State.Changed 3
  | 4 => State.Changed 4
  | _ => State.NotChanged

/-- The callback of C4's scenario: accepts only the value `3`, mapping
it to `5`. -/
def filterCallback : Nat → Option Nat := fun v =>
  if v = 3 then some 5 else none

/-- C4: the `first` flag of a freshly built `FilterMap` node starts
`true`; each poll loops over upstream polls — upstream `NotChanged`
returns `NotChanged`, a `Changed v` accepted by the callback clears
`first` and returns `Changed (some out)`, a rejected `Changed v` returns
the one-time `Changed none` when `first` is still set and is otherwise
discarded with the upstream re-polled in the same call; in particular,
for callback results `[none, none, some 5, none]` fed one per poll, four
successive polls return exactly
`Changed none, NotChanged, Changed (some 5), NotChanged`. -/
theorem filter_map_poll_spec :
    filterMapInit.first = true ∧
    FilterMap.run 3 filterSource filterCallback 4 filterMapInit =
      some [State.Changed none, State.NotChanged,
        State.Changed (some 5), State.NotChanged] ∧
    (∀ (α β : Type) (fuel : Nat) (signal : Upstream α)
      (callback : α → Option β) (s : FilterMap),
      signal s.k = State.NotChanged →
        FilterMap.poll (fuel + 1) signal callback s =
          some (State.NotChanged, ⟨s.k + 1, s.first⟩)) ∧
    (∀ (α β : Type) (fuel : Nat) (signal : Upstream α)
      (callback : α → Option β) (s : FilterMap) (v : α) (out : β),
      signal s.k = State.Changed v → callback v = some out →
        FilterMap.poll (fuel + 1) signal callback s =
          some (State.Changed (some out), ⟨s.k + 1, false⟩)) ∧
    (∀ (α β : Type) (fuel : Nat) (signal : Upstream α)
      (callback : α → Option β) (s : FilterMap) (v : α),
      signal s.k = State.Changed v → callback v = none → s.first = true →
        FilterMap.poll (fuel + 1) signal callback s =
          some (State.Changed none, ⟨s.k + 1, false⟩)) ∧
    (∀ (α β : Type) (fuel : Nat) (signal : Upstream α)
      (callback : α → Option β) (s : FilterMap) (v : α),
      signal s.k = State.Changed v → callback v = none → s.first = false →
        FilterMap.poll (fuel + 1) signal callback s =
          FilterMap.poll fuel signal callback ⟨s.k + 1, false⟩) := by
  refine ⟨rfl, by decide, ?_, ?_, ?_, ?_⟩
  · intro α β fuel signal callback s h
    exact FilterMap.poll_not_changed_filter fuel signal callback s h
  · intro α β fuel signal callback s v out h hc
    exact FilterMap.poll_changed_some fuel signal callback s v out h hc
  · intro α β fuel signal callback s v h hc hf
    exact FilterMap.poll_changed_none_of_first fuel signal callback s v h hc hf
  · intro α β fuel signal callback s v h hc hf
    exact FilterMap.poll_changed_none_loop fuel signal callback s v h hc hf

/-- C4 (witness): the general clauses at concrete inputs — `NotChanged`
passes through, the accepted value `3` emits `Changed (some 5)`, a
rejected value with `first` set emits the one-time `Changed none`, and a
rejected value with `first` cleared re-drives the loop. -/
theorem filter_map_poll_spec_witness :
    FilterMap.poll 1 (fun _ : Nat => State.NotChanged) filterCallback
        ⟨0, false⟩ =
      some (State.NotChanged, ⟨1, false⟩) ∧
    FilterMap.poll 1 (fun _ => State.Changed 3) filterCallback
        ⟨0, false⟩ =
      some (State.Changed (some 5), ⟨1, false⟩) ∧
    FilterMap.poll 1 (fun _ => State.Changed 1) filterCallback
        filterMapInit =
      some (State.Changed none, ⟨1, false⟩) ∧
    FilterMap.poll 2 (fun _ => State.Changed 1) filterCallback
        ⟨0, false⟩ =
      FilterMap.poll 1 (fun _ => State.Changed 1) filterCallback
        ⟨1, false⟩ :=
  ⟨filter_map_poll_spec.2.2.1 Nat Nat 0 _ _ _ rfl,
    filter_map_poll_spec.2.2.2.1 Nat Nat 0 _ _ _ 3 5 rfl (by decide),
    filter_map_poll_spec.2.2.2.2.1 Nat Nat 0 _ _ _ 1 rfl (by decide) rfl,
    filter_map_poll_spec.2.2.2.2.2 Nat Nat 1 _ _ _ 1 rfl (by decide) rfl⟩

/-- An inner signal as carried by the items of a `Flatten` node's outer
signal: its poll-result sequence together with how many times it has
been polled so far. -/
structure Sig (α : Type) where
  seq : Upstream α
  k : Nat

/-- Polling an inner signal: read the next entry of its sequence and
advance its counter. -/
def Sig.poll {α : Type} (s : Sig α) : State α × Sig α :=
  (s.seq s.k, ⟨s.seq, s.k + 1⟩)

/-- Private state of a `Flatten` node: the outer signal's poll counter
and the cached currently-active inner signal (`inner: Option<A::Item>`,
`None` until the outer signal first changes). -/
structure Flatten (α : Type) where
  k : Nat
  inner : Option (Sig α)

/-- State built by the `Signal::flatten` constructor: `inner: None`. -/
def flattenInit (α : Type) : Flatten α :=
  ⟨0, none⟩

/-- `Flatten::poll`, transcribed from `signal.rs` lines 378–391: an outer
`Changed inner` installs the new inner signal and polls it once,
returning whatever that poll yields; an outer `NotChanged` polls the
cached inner signal if one exists and otherwise returns `NotChanged`. -/
def Flatten.poll {α : Type} (signal : Upstream (Sig α)) (s : Flatten α) :
    State α × Flatten α :=
  match signal s.k with
  | State.Changed inner =>
      let p := inner.poll
      (p.1, ⟨s.k + 1, some p.2⟩)
  | State.NotChanged =>
      match s.inner with
      | some inner =>
          let p := inner.poll
          (p.1, ⟨s.k + 1, some p.2⟩)
      | none => (State.NotChanged, ⟨s.k + 1, none⟩)

/-- C5: when the outer signal returns `Changed inner`, `Flatten::poll`
replaces the cached inner signal with the new one, polls it exactly once
(its counter advances from `inner.k` to `inner.k + 1`) and returns
exactly that poll's result (`inner.seq inner.k`, which may well be
`NotChanged` — switching never forces an emission); when the outer
signal returns `NotChanged`, the cached inner signal is polled and its
result returned if one is cached, and `NotChanged` is returned if no
inner signal is cached yet. -/
theorem flatten_poll_spec :
    (∀ (α : Type) (signal : Upstream (Sig α)) (s : Flatten α)
      (inner : Sig α),
      signal s.k = State.Changed inner →
        Flatten.poll signal s =
          (inner.seq inner.k, ⟨s.k + 1, some ⟨inner.seq, inner.k + 1⟩⟩)) ∧
    (∀ (α : Type) (signal : Upstream (Sig α)) (s : Flatten α)
      (inner : Sig α),
      signal s.k = State.NotChanged → s.inner = some inner →
        Flatten.poll signal s =
          (inner.seq inner.k, ⟨s.k + 1, some ⟨inner.seq, inner.k + 1⟩⟩)) ∧
    (∀ (α : Type) (signal : Upstream (Sig α)) (s : Flatten α),
      signal s.k = State.NotChanged → s.inner = none →
        Flatten.poll signal s = (State.NotChanged, ⟨s.k + 1, none⟩)) := by
  refine ⟨?_, ?_, ?_⟩
  · intro α signal s inner h
    simp [Flatten.poll, Sig.poll, h]
  · intro α signal s inner h hi
    simp [Flatten.poll, Sig.poll, h, hi]
  · intro α signal s h hi
    simp [Flatten.poll, h, hi]

/-- The inner signal of C5's witness scenario: a freshly constructed
signal whose first poll is `NotChanged`. -/
def innerSeqC5 : Upstream Nat := fun _ => State.NotChanged

/-- The outer signal of C5's witness scenario: it switches to
`innerSeqC5` on its first poll. -/
def outerC5 : Upstream (Sig Nat) := fun _ => State.Changed ⟨innerSeqC5, 0⟩

/-- C5 (witness): switching to a freshly constructed inner signal whose
first poll is `NotChanged` yields `NotChanged` on the switch tick, while
the new inner signal is installed and has been polled exactly once. -/
theorem flatten_poll_spec_witness :
    Flatten.poll outerC5 (flattenInit Nat) =
      (State.NotChanged, ⟨1, some ⟨innerSeqC5, 1⟩⟩) :=
  flatten_poll_spec.1 Nat outerC5 (flattenInit Nat) ⟨innerSeqC5, 0⟩ rfl

/-- The shared cell of the mutable-variable pair, mirroring
`unsync::Inner<A>`: the pending value slot and the registered waiter
task (tasks are modelled by identifiers). -/
structure Inner (α : Type) where
  value : Option α
  task : Option Nat
  deriving DecidableEq

/-- A mutable-variable cell together with its liveness: `alive` models
whether the `Rc` still has strong references, i.e. whether any
`Receiver` is still alive (the `Sender` only holds a `Weak`). -/
structure Cell (α : Type) where
  alive : Bool
  inner : Inner α
  deriving DecidableEq

/-- `unsync::Sender::set`, from `signal.rs` lines 414–430.  If the cell
is gone (all Receivers dropped, `Weak::upgrade` fails) it returns
`Err(value)` and changes nothing.  Otherwise it overwrites the pending
slot with the new value, takes the registered waiter (leaving `None`)
and notifies it; the third component is the task that was notified, if
any. -/
def Sender.set {α : Type} (value : α) (c : Cell α) :
    Except α Unit × Cell α × Option Nat :=
  if c.alive then
    (Except.ok (), ⟨c.alive, ⟨some value, none⟩⟩, c.inner.task)
  else
    (Except.error value, c, none)

/-- `unsync::Receiver::poll`, from `signal.rs` lines 443–454.  If the
pending slot holds a value, take it (emptying the slot) and return
`Changed`; otherwise register the currently-running task as the waiter
(overwriting any prior registration) and return `NotChanged`. -/
def Receiver.poll {α : Type} (current : Nat) (c : Cell α) :
    State α × Cell α :=
  match c.inner.value with
  | some value => (State.Changed value, ⟨c.alive, ⟨none, c.inner.task⟩⟩)
  | none => (State.NotChanged, ⟨c.alive, ⟨none, some current⟩⟩)

/-- `unsync::mutable`, from `signal.rs` lines 458–473: the fresh cell is
pre-loaded with the initial value as a pending value and has no waiter;
the freshly returned `Receiver` keeps it alive. -/
def mutable {α : Type} (initial_value : α) : Cell α :=
  ⟨true, ⟨some initial_value, none⟩⟩

/-- C6: on a cell with a live Receiver, `Sender::set x` followed by
`Receiver::poll` returns `Changed x` and empties the pending slot, so a
second immediate poll with no intervening set returns `NotChanged`. -/
theorem mutable_set_poll_roundtrip {α : Type} (c : Cell α) (x : α)
    (t1 t2 : Nat) (h : c.alive = true) :
    (Receiver.poll t1 (Sender.set x c).2.1).1 = State.Changed x ∧
    (Receiver.poll t1 (Sender.set x c).2.1).2.inner.value = none ∧
    (Receiver.poll t2 (Receiver.poll t1 (Sender.set x c).2.1).2).1 =
      State.NotChanged := by
  simp [Sender.set, Receiver.poll, h]

/-- C6 (witness): the round trip at the cell `mutable 0` with the value
`7`. -/
theorem mutable_set_poll_roundtrip_witness :
    (Receiver.poll 0 (Sender.set 7 (mutable 0)).2.1).1 = State.Changed 7 ∧
    (Receiver.poll 0 (Sender.set 7 (mutable 0)).2.1).2.inner.value = none ∧
    (Receiver.poll 1 (Receiver.poll 0 (Sender.set 7 (mutable 0)).2.1).2).1 =
      State.NotChanged :=
  mutable_set_poll_roundtrip (mutable 0) 7 0 1 rfl

/-- C7: `Sender::set x` on a cell whose Receivers have all been dropped
returns the rejected value back as `Err x`, leaving the cell (and
everything else) unchanged and notifying nobody; on a live cell `set`
succeeds and overwrites any previously pending unobserved value, so a
second `set y` before any poll leaves `y` pending (last-write-wins). -/
theorem sender_set_spec {α : Type} (c : Cell α) (x y : α) :
    (c.alive = false →
      Sender.set x c = (Except.error x, c, none)) ∧
    (c.alive = true →
      (Sender.set x c).1 = Except.ok () ∧
      (Sender.set x c).2.1 = ⟨true, ⟨some x, none⟩⟩ ∧
      (Sender.set y (Sender.set x c).2.1).1 = Except.ok () ∧
      (Sender.set y (Sender.set x c).2.1).2.1.inner.value = some y) := by
  constructor
  · intro h
    simp [Sender.set, h]
  · intro h
    simp [Sender.set, h]

/-- C7 (witness): a dead cell rejects the value `3` unconsumed; the live
cell `mutable 0` accepts `4` and then `5`, with `5` pending. -/
theorem sender_set_spec_witness :
    Sender.set 3 (⟨false, ⟨none, none⟩⟩ : Cell Nat) =
      (Except.error 3, ⟨false, ⟨none, none⟩⟩, none) ∧
    ((Sender.set 4 (mutable 0)).1 = Except.ok () ∧
      (Sender.set 4 (mutable 0)).2.1 = ⟨true, ⟨some 4, none⟩⟩ ∧
      (Sender.set 5 (Sender.set 4 (mutable 0)).2.1).1 = Except.ok () ∧
      (Sender.set 5 (Sender.set 4 (mutable 0)).2.1).2.1.inner.value =
        some 5) :=
  ⟨(sender_set_spec ⟨false, ⟨none, none⟩⟩ 3 3).1 rfl,
    (sender_set_spec (mutable 0) 4 5).2 rfl⟩

/-- C10: the constructor `mutable v` pre-loads the shared cell with `v`
as a pending value, so the first poll of the freshly created Receiver
already returns `Changed v` (emptying the slot), even though no
`Sender::set` has been called. -/
theorem mutable_initial_poll {α : Type} (x : α) (t : Nat) :
    (mutable x).inner.value = some x ∧
    Receiver.poll t (mutable x) = (State.Changed x, ⟨true, ⟨none, none⟩⟩) := by
  simp [mutable, Receiver.poll]

/-- One poll step of a `futures`-style stream, mirroring
`Poll<Option<Item>, Error>`: `ready none` is `Ok(Async::Ready(None))`
(permanent end of the sequence), `ready (some v)` an item, `notReady`
`Ok(Async::NotReady)`, and `errored` an `Err`. -/
inductive StreamPoll (α : Type) where
  | ready (value : Option α) : StreamPoll α
  | notReady : StreamPoll α
  | errored : StreamPoll α
  deriving DecidableEq

/-- Shared state of the cancellation pair, mirroring the
`Rc<Cell<bool>>` flag shared by `DropHandle` and `DropStream`, plus the
wrapped stream's poll counter. -/
structure DropStream where
  done : Bool
  k : Nat
  deriving DecidableEq

/-- The state built by `drop_handle`: the shared flag starts `false` and
the wrapped stream has not been polled. -/
def drop_handle : DropStream :=
  ⟨false, 0⟩

/-- `DropHandle::stop`, from `signal.rs` lines 180–182: set the shared
flag to `true` (the handle is consumed, so this is one-shot). -/
def DropHandle.stop (s : DropStream) : DropStream :=
  ⟨true, s.k⟩

/-- `DropStream::poll`, from `signal.rs` lines 196–203: check the shared
flag first; once it is `true`, report `Ok(Async::Ready(None))` without
delegating to the wrapped stream (its counter stays put); otherwise
delegate. -/
def DropStream.poll {α : Type} (stream : Nat → StreamPoll α)
    (s : DropStream) : StreamPoll α × DropStream :=
  if s.done then
    (StreamPoll.ready none, s)
  else
    (stream s.k, ⟨s.done, s.k + 1⟩)

/-- Successive polls of a `DropStream`, collecting the reported steps. -/
def DropStream.run {α : Type} (stream : Nat → StreamPoll α) :
    Nat → DropStream → List (StreamPoll α)
  | 0, _ => []
  | n + 1, s =>
      let p := DropStream.poll stream s
      p.1 :: DropStream.run stream n p.2

/-- C8: `DropHandle::stop` sets the shared flag to `true`; once the flag
is `true`, every poll of the guarded stream returns end-of-sequence
(`ready none`) with the whole state untouched — in particular the
wrapped stream is not delegated to, whatever it would produce — and any
number of subsequent polls all report termination; moreover no poll ever
changes the flag, so it is never reset to `false`. -/
theorem drop_stream_stop_spec {α : Type} (stream : Nat → StreamPoll α)
    (s : DropStream) :
    (DropHandle.stop s).done = true ∧
    (s.done = true →
      DropStream.poll stream s = (StreamPoll.ready none, s)) ∧
    (DropStream.poll stream s).2.done = s.done ∧
    (∀ n, s.done = true →
      DropStream.run stream n s =
        List.replicate n (StreamPoll.ready none)) := by
  refine ⟨rfl, ?_, ?_, ?_⟩
  · intro h
    simp [DropStream.poll, h]
  · by_cases h : s.done <;> simp [DropStream.poll, h]
  · intro n h
    induction n with
    | zero => rfl
    | succ n ih =>
        simp [DropStream.run, DropStream.poll, h, ih, List.replicate]

/-- C8 (witness): after `stop`, a poll of the guarded stream over a
wrapped stream that would still produce the item `1` reports
end-of-sequence with the state untouched, and three successive polls all
report end-of-sequence. -/
theorem drop_stream_stop_spec_witness :
    DropStream.poll (fun _ => StreamPoll.ready (some 1))
        (DropHandle.stop drop_handle) =
      (StreamPoll.ready none, DropHandle.stop drop_handle) ∧
    DropStream.run (fun _ => StreamPoll.ready (some 1)) 3
        (DropHandle.stop drop_handle) =
      List.replicate 3 (StreamPoll.ready none) :=
  ⟨(drop_stream_stop_spec (fun _ => StreamPoll.ready (some 1))
      (DropHandle.stop drop_handle)).2.1 rfl,
    (drop_stream_stop_spec (fun _ => StreamPoll.ready (some 1))
      (DropHandle.stop drop_handle)).2.2.2 3 rfl⟩

/-- C9: the inner re-drive loops of `MapDedupe::poll` and
`FilterMap::poll` terminate.  If the upstream, within finitely many
further polls (`n` more), reaches a result that is terminal for the
node's current state — `NotChanged`, or a value unequal to the dedupe
cache, or a value the filter callback accepts, or any rejected value
while the one-time `first` event is still pending — then the outer poll
call returns after at most `n + 1` upstream polls (fuel `n + 1`
suffices, so only finitely many upstream polls happen). -/
theorem redrive_loops_terminate {α β γ δ : Type} [DecidableEq α] :
    (∀ (signal : Upstream α) (callback : α → β) (s : MapDedupe α)
      (n : Nat),
      (signal (s.k + n) = State.NotChanged ∨
        ∃ v, signal (s.k + n) = State.Changed v ∧ s.old_value ≠ some v) →
      ∃ out s', MapDedupe.poll (n + 1) signal callback s =
        some (out, s')) ∧
    (∀ (signal : Upstream γ) (callback : γ → Option δ) (s : FilterMap)
      (n : Nat),
      (signal (s.k + n) = State.NotChanged ∨
        ∃ v, signal (s.k + n) = State.Changed v ∧
          (callback v ≠ none ∨ s.first = true)) →
      ∃ out s', FilterMap.poll (n + 1) signal callback s =
        some (out, s')) := by
  constructor
  · intro signal callback s n
    induction n generalizing s with
    | zero =>
        intro h
        simp only [Nat.add_zero] at h
        rcases h with h | ⟨v, hv, hne⟩
        · exact ⟨_, _, MapDedupe.poll_not_changed_dedupe 0 signal callback s h⟩
        · exact ⟨_, _,
            MapDedupe.poll_changed_of_ne 0 signal callback s v hv hne⟩
    | succ n ih =>
        intro h
        cases hsig : signal s.k with
        | NotChanged =>
            exact ⟨_, _,
              MapDedupe.poll_not_changed_dedupe (n + 1) signal callback s hsig⟩
        | Changed v =>
            by_cases heq : s.old_value = some v
            · rw [MapDedupe.poll_changed_of_eq (n + 1) signal callback s v
                hsig heq]
              apply ih ⟨s.k + 1, s.old_value⟩
              have hidx : s.k + 1 + n = s.k + (n + 1) := by omega
              simpa [hidx] using h
            · exact ⟨_, _, MapDedupe.poll_changed_of_ne (n + 1) signal
                callback s v hsig heq⟩
  · intro signal callback s n
    induction n generalizing s with
    | zero =>
        intro h
        simp only [Nat.add_zero] at h
        rcases h with h | ⟨v, hv, hcb | hfirst⟩
        · exact ⟨_, _, FilterMap.poll_not_changed_filter 0 signal callback s h⟩
        · obtain ⟨out, hout⟩ := Option.ne_none_iff_exists'.mp hcb
          exact ⟨_, _,
            FilterMap.poll_changed_some 0 signal callback s v out hv hout⟩
        · cases hcb2 : callback v with
          | some out =>
              exact ⟨_, _, FilterMap.poll_changed_some 0 signal callback s
                v out hv hcb2⟩
          | none =>
              exact ⟨_, _, FilterMap.poll_changed_none_of_first 0 signal
                callback s v hv hcb2 hfirst⟩
    | succ n ih =>
        intro h
        cases hsig : signal s.k with
        | NotChanged =>
            exact ⟨_, _,
              FilterMap.poll_not_changed_filter (n + 1) signal callback s hsig⟩
        | Changed v =>
            cases hcb : callback v with
            | some out =>
                exact ⟨_, _, FilterMap.poll_changed_some (n + 1) signal
                  callback s v out hsig hcb⟩
            | none =>
                cases hf : s.first with
                | true =>
                    exact ⟨_, _, FilterMap.poll_changed_none_of_first
                      (n + 1) signal callback s v hsig hcb hf⟩
                | false =>
                    rw [FilterMap.poll_changed_none_loop (n + 1) signal
                      callback s v hsig hcb hf]
                    apply ih ⟨s.k + 1, false⟩
                    have hidx : s.k + 1 + n = s.k + (n + 1) := by omega
                    rcases h with h | ⟨v', hv', hcb' | hfirst'⟩
                    · exact Or.inl (by simpa [hidx] using h)
                    · exact Or.inr ⟨v', by simpa [hidx] using hv',
                        Or.inl hcb'⟩
                    · rw [hf] at hfirst'
                      cases hfirst'

/-- C9 (witness): a dedupe node at sub-poll index `3` whose cache `1`
differs from the upstream's next value `2` returns with fuel `1`, and a
filter node whose upstream rejects two values and then yields
`NotChanged` returns with fuel `3`. -/
theorem redrive_loops_terminate_witness :
    (∃ out s', MapDedupe.poll 1 dedupeSource (fun v : Nat => v)
      ⟨3, some 1⟩ = some (out, s')) ∧
    (∃ out s', FilterMap.poll 3 filterSource filterCallback
      ⟨0, false⟩ = some (out, s')) :=
  ⟨(redrive_loops_terminate (α := Nat) (β := Nat) (γ := Nat)
      (δ := Nat)).1 dedupeSource (fun v => v) ⟨3, some 1⟩ 0
      (Or.inr ⟨2, rfl, by decide⟩),
    (redrive_loops_terminate (α := Nat) (β := Nat) (γ := Nat)
      (δ := Nat)).2 filterSource filterCallback ⟨0, false⟩ 2
      (Or.inl rfl)⟩

end RustSignals
